import Mathlib

/-!
Verification of the calmmage service-registry monitoring core.

Shallow embedding of `src/api/models.py`, `src/api/db.py`,
`src/api/monitoring.py` and `src/api/main.py`.  Time is modelled by ℤ
(seconds); datetime subtraction, comparison and the median computation of
the source are closed over ℤ.  The several `datetime.now()` calls made
inside one evaluation are modelled by a single instant `now`.  The
document store is modelled by a `DB` record holding the three collections
`services`, `heartbeats`, `state_transitions` as lists; Mongo timestamp
strings compare in the same order as the instants they render, so the
`$gte` window filter and the timestamp sorts are modelled directly on ℤ.
-/

namespace ServiceRegistry

/-- The `ServiceStatus` enum of `models.py`. -/
inductive ServiceStatus where
  | unknown
  | alive
  | down
  | dead
deriving DecidableEq, Repr

/-- The `.value` string of each `ServiceStatus` member (`models.py`). -/
def statusValue : ServiceStatus → String
  | .unknown => "unknown"
  | .alive => "alive"
  | .down => "down"
  | .dead => "dead"

/-- The `ServiceType` enum of `models.py`. -/
inductive ServiceType where
  | cloud_service
  | local_job
deriving DecidableEq, Repr

/-- The `Service` pydantic model of `models.py`.  `updated_at` is an `Option`
so that a missing / null last-update time (the `if not service.updated_at`
branch of `compute_status_from_config`) is representable.  `metadata` is an
opaque key/value bag; the Mongo `_id` bookkeeping field is omitted. -/
structure Service where
  service_key : String
  display_name : Option String := none
  service_type : Option ServiceType := none
  service_group : Option String := some "default"
  expected_period : Option Int := none
  dead_after : Option Int := none
  status : ServiceStatus := .alive
  updated_at : Option ℤ := none
  alerts_enabled : Bool := true
  metadata : List (String × String) := []
deriving DecidableEq, Repr

/-- The `Heartbeat` document as written by `store_heartbeat` (`db.py`). -/
structure Heartbeat where
  service_key : String
  timestamp : ℤ
  metadata : List (String × String) := []
deriving DecidableEq, Repr

/-- The `StateTransition` pydantic model of `models.py` (Mongo `_id` omitted). -/
structure StateTransition where
  service_key : String
  from_state : ServiceStatus
  to_state : ServiceStatus
  timestamp : ℤ
  alerted : Bool := false
  alert_message : Option String := none
deriving DecidableEq, Repr

/-- The three Mongo collections used by `db.py`. -/
structure DB where
  services : List Service
  heartbeats : List Heartbeat
  state_transitions : List StateTransition
deriving DecidableEq, Repr

/-- Python truthiness of an optional integer field (`if not
service.expected_period` treats both `None` and `0` as falsy). -/
def intTruthy : Option Int → Bool
  | none => false
  | some v => v != 0

/-- Python truthiness of an optional string (`if service_key:` in
`get_state_transitions` treats `None` and `""` as falsy). -/
def strTruthy : Option String → Bool
  | none => false
  | some s => s != ""

/-- Seven days in seconds (`7 * 24 * 3600` of `monitoring.py`). -/
def sevenDays : ℤ := 7 * 24 * 3600

/-- Fifteen minutes in seconds (`15 * 60` of `monitoring.py`). -/
def fifteenMinutes : ℤ := 15 * 60

/-- The `compute_status_from_heartbeats` of `monitoring.py`. -/
def compute_status_from_heartbeats (last_heartbeat : ℤ)
    (median_interval : Option ℤ) (now : ℤ) : ServiceStatus :=
  let time_since_update := now - last_heartbeat
  match median_interval with
  | none =>
    if time_since_update > sevenDays then .dead
    else if time_since_update > fifteenMinutes then .down
    else .alive
  | some m =>
    if time_since_update > sevenDays then .dead
    else if time_since_update > 2 * m then .down
    else .alive

/-- The `compute_status_from_config` of `monitoring.py`.  The
string-vs-datetime `parse_datetime` branch is a serialization artifact and
both sides are modelled by the ℤ value itself. -/
def compute_status_from_config (s : Service) (now : ℤ) : ServiceStatus :=
  match s.updated_at with
  | none => .down
  | some last_update =>
    let time_since_update := now - last_update
    if !intTruthy s.expected_period then
      if time_since_update > sevenDays then .dead
      else if time_since_update > fifteenMinutes then .down
      else .alive
    else
      let expected_period := s.expected_period.getD 0
      let dead_after : Int :=
        if intTruthy s.dead_after then s.dead_after.getD 0
        else expected_period * 7
      if time_since_update > (dead_after : ℤ) then .dead
      else if time_since_update > (expected_period : ℤ) * 2 then .down
      else .alive

/-- Descending comparison on ℤ used for Mongo `sort("timestamp", -1)`. -/
def geQ (a b : ℤ) : Prop := b ≤ a

instance : DecidableRel geQ := fun a b => inferInstanceAs (Decidable (b ≤ a))

instance : IsTotal ℤ geQ := ⟨fun a b => le_total b a⟩

instance : IsTrans ℤ geQ := ⟨fun _ _ _ hab hbc => le_trans hbc hab⟩

/-- The timestamps of the heartbeats of `key` inside the 7-day window,
sorted descending: the cursor
`db.heartbeats.find({service_key, timestamp: {$gte: cutoff}}).sort("timestamp", -1)`
of `get_all_services_status` (`db.py`). -/
def recentTimestampsDesc (hbs : List Heartbeat) (key : String) (now : ℤ) :
    List ℤ :=
  let cutoff := now - sevenDays
  ((hbs.filter (fun h => h.service_key == key && cutoff ≤ h.timestamp)).map
    Heartbeat.timestamp).insertionSort geQ

/-- Consecutive inter-arrival gaps `timestamp[i] - timestamp[i+1]` of a
descending timestamp list (`db.py`, interval loop of
`get_all_services_status`). -/
def gapsOf (ts : List ℤ) : List ℤ := List.zipWith (· - ·) ts ts.tail

/-- The `intervals.sort(); intervals[len(intervals) // 2]` of
`get_all_services_status` (`db.py`): the element at index `len / 2` of the
ascending-sorted interval list. -/
def medianStat (l : List ℤ) : Option ℤ :=
  (l.insertionSort (· ≤ ·))[l.length / 2]?

/-- Per-service part of a `ServiceStatusResponse` (`models.py`) that the
monitoring pass consumes. -/
structure HBInfo where
  last_heartbeat : ℤ
  median_interval : Option ℤ
  heartbeat_count : Nat
deriving DecidableEq, Repr

/-- Entry of `get_all_services_status` (`db.py`) for one service key:
`none` when the key has no heartbeat inside the last 7 days (the key is
then absent from the returned dict), otherwise the most recent timestamp,
the median interval (computed only when at least 4 recent heartbeats
exist) and the heartbeat count. -/
def heartbeatStatusFor (hbs : List Heartbeat) (key : String) (now : ℤ) :
    Option HBInfo :=
  let tsDesc := recentTimestampsDesc hbs key now
  tsDesc.head?.map (fun t0 =>
    ⟨t0,
      if 4 ≤ tsDesc.length then medianStat (gapsOf tsDesc) else none,
      tsDesc.length⟩)

/-- The status computed for one service by the loop body of
`check_all_services` (`monitoring.py`): configured thresholds when
`expected_period` is truthy, otherwise heartbeat statistics, with
`UNKNOWN` when the service has no entry in `get_all_services_status`. -/
def computedStatusFor (db : DB) (s : Service) (now : ℤ) : ServiceStatus :=
  if intTruthy s.expected_period then compute_status_from_config s now
  else
    match heartbeatStatusFor db.heartbeats s.service_key now with
    | none => .unknown
    | some info =>
      compute_status_from_heartbeats info.last_heartbeat
        info.median_interval now

/-- The `format_datetime` of `models.py` renders a timestamp as a string; the
concrete `strftime` pattern is a serialization artifact, modelled by the
decimal rendering of the ℤ value. -/
def formatDatetime (t : ℤ) : String := toString t

/-- The `get_service` of `db.py`: `find_one` returns the first document whose
`service_key` matches. -/
def get_service (db : DB) (key : String) : Option Service :=
  db.services.find? (fun s => s.service_key == key)

/-- Mongo `update_one`: apply `f` to the first document matching `key`,
leave the rest unchanged. -/
def updateFirstService (l : List Service) (key : String)
    (f : Service → Service) : List Service :=
  match l with
  | [] => []
  | s :: rest =>
    if s.service_key == key then f s :: rest
    else s :: updateFirstService rest key f

/-- The optional keyword arguments of `upsert_service` (`db.py`): `none`
means the argument was not provided and the field is left unchanged. -/
structure ServicePatch where
  service_type : Option ServiceType := none
  service_group : Option String := none
  expected_period : Option Int := none
  dead_after : Option Int := none
  status : Option ServiceStatus := none
  alerts_enabled : Option Bool := none
  display_name : Option String := none
  metadata : Option (List (String × String)) := none
deriving DecidableEq, Repr

/-- The `$set` document built by `upsert_service` (`db.py`) applied to a
service document: each provided field is overwritten, and providing
`status` also stamps `updated_at := now`. -/
def applyPatch (p : ServicePatch) (now : ℤ) (s : Service) : Service :=
  { s with
    service_type :=
      match p.service_type with
      | some t => some t
      | none => s.service_type
    service_group :=
      match p.service_group with
      | some g => some g
      | none => s.service_group
    expected_period :=
      match p.expected_period with
      | some e => some e
      | none => s.expected_period
    dead_after :=
      match p.dead_after with
      | some d => some d
      | none => s.dead_after
    status := p.status.getD s.status
    updated_at :=
      match p.status with
      | some _ => some now
      | none => s.updated_at
    alerts_enabled := p.alerts_enabled.getD s.alerts_enabled
    display_name :=
      match p.display_name with
      | some d => some d
      | none => s.display_name
    metadata := p.metadata.getD s.metadata }

/-- The `upsert_service` of `db.py`: `update_one(..., upsert=False)` followed
by the `modified_count` check.  `modified_count` is positive exactly when
a document matched and the `$set` actually changed it; otherwise the
function raises `ValueError("Failed to update service: ...")`, modelled as
`Except.error`. -/
def upsert_service (db : DB) (key : String) (p : ServicePatch) (now : ℤ) :
    Except String (Service × DB) :=
  match get_service db key with
  | none => .error ("Failed to update service: " ++ key)
  | some s =>
    let s' := applyPatch p now s
    if s' = s then .error ("Failed to update service: " ++ key)
    else
      .ok (s',
        { db with
          services := updateFirstService db.services key (applyPatch p now) })

/-- The `record_state_transition` of `db.py`: returns `none` and writes
nothing when the service document is missing or has `alerts_enabled`
false; otherwise inserts a fresh transition with `alerted = false`. -/
def record_state_transition (db : DB) (key : String)
    (from_state to_state : ServiceStatus) (alert_message : Option String)
    (now : ℤ) : Option StateTransition × DB :=
  match get_service db key with
  | none => (none, db)
  | some s =>
    if !s.alerts_enabled then (none, db)
    else
      let tr : StateTransition :=
        { service_key := key, from_state := from_state, to_state := to_state
          timestamp := now, alerted := false, alert_message := alert_message }
      (some tr,
        { db with state_transitions := db.state_transitions ++ [tr] })

/-- The `mark_service_transitions_alerted` of `db.py`:
`update_many({service_key, alerted: false}, {$set: {alerted: true}})`;
returns the `modified_count` and the updated store. -/
def mark_service_transitions_alerted (db : DB) (key : String) : Nat × DB :=
  let flipped := db.state_transitions.filter
    (fun t => t.service_key == key && t.alerted == false)
  (flipped.length,
    { db with
      state_transitions := db.state_transitions.map
        (fun t =>
          if t.service_key == key && t.alerted == false then
            { t with alerted := true }
          else t) })

/-- The alert message composed by `check_all_services` (`monitoring.py`)
for a status change to `computed`: the "back online" text for ALIVE, the
"Last seen" text for DOWN and DEAD (using the last recent heartbeat when
one exists and otherwise the just-written `updated_at = now`), and no
message for UNKNOWN. -/
def composeMessage (key : String) (computed : ServiceStatus)
    (hb : Option HBInfo) (now : ℤ) : Option String :=
  if computed = .alive then
    some ("Service " ++ key ++ " is back online!")
  else if computed = .down ∨ computed = .dead then
    let last_seen :=
      match hb with
      | some info => formatDatetime info.last_heartbeat
      | none => formatDatetime now
    some ("Service " ++ key ++ " is " ++ statusValue computed ++
      ". Last seen: " ++ last_seen)
  else none

/-- One iteration of the `check_all_services` loop (`monitoring.py`) for
service `s`: compute the status; when unchanged do nothing; otherwise
persist it through `upsert_service` (whose `ValueError` propagates as
`Except.error`), compose the alert message and call
`record_state_transition`. -/
def checkService (db : DB) (s : Service) (now : ℤ) :
    Except String (DB × Option StateTransition) :=
  let key := s.service_key
  let hb := heartbeatStatusFor db.heartbeats key now
  let computed := computedStatusFor db s now
  if computed = s.status then .ok (db, none)
  else
    match upsert_service db key { status := some computed } now with
    | .error e => .error e
    | .ok (_, db1) =>
      let msg := composeMessage key computed hb now
      let (tr, db2) :=
        record_state_transition db1 key s.status computed msg now
      .ok (db2, tr)

/-- Python `str.title()` (ASCII): the first alphabetic character of every
word is uppercased, subsequent alphabetic characters are lowercased. -/
def titleCase (s : String) : String :=
  String.mk
    (s.toList.foldl
      (fun (acc : List Char × Bool) c =>
        let c' := if c.isAlpha then (if acc.2 then c.toLower else c.toUpper)
                  else c
        (acc.1 ++ [c'], c.isAlpha))
      ([], false)).1

/-- Default display name generated by the `/heartbeat` handler
(`main.py`): hyphens and underscores replaced by spaces, then
title-cased. -/
def displayNameFor (key : String) : String :=
  titleCase ((key.replace "-" " ").replace "_" " ")

/-- The service document inserted by the `/heartbeat` handler (`main.py`)
when the key is not yet known. -/
def newServiceFor (key : String) (now : ℤ) : Service :=
  { service_key := key
    display_name := some (displayNameFor key)
    service_type := none
    service_group := some "default"
    expected_period := none
    dead_after := none
    status := .alive
    updated_at := some now
    alerts_enabled := true
    metadata := [] }

/-- The `store_heartbeat` of `db.py`: append one heartbeat document. -/
def store_heartbeat (db : DB) (key : String) (now : ℤ)
    (metadata : List (String × String)) : DB :=
  { db with
    heartbeats :=
      db.heartbeats ++ [{ service_key := key, timestamp := now
                          metadata := metadata }] }

/-- The `ServiceRequest` body of `POST /configure-service` (`main.py`). -/
structure ServiceRequest where
  service_key : String
  service_type : Option ServiceType := none
  service_group : Option String := none
  expected_period : Option Int := none
  dead_after : Option Int := none
  alerts_enabled : Option Bool := none
  display_name : Option String := none
  metadata : Option (List (String × String)) := none
deriving DecidableEq, Repr

/-- The keyword arguments that `configure_service` (`main.py`) forwards to
`upsert_service`: every request field except `status`, which this endpoint
never sets. -/
def patchOfRequest (req : ServiceRequest) : ServicePatch :=
  { service_type := req.service_type
    service_group := req.service_group
    expected_period := req.expected_period
    dead_after := req.dead_after
    status := none
    alerts_enabled := req.alerts_enabled
    display_name := req.display_name
    metadata := req.metadata }

/-- The `POST /configure-service` (`main.py`): on success HTTP 200 with the
updated service; any exception (here the `ValueError` of
`upsert_service`) is caught and re-raised as
`HTTPException(status_code=500)`, leaving the store unchanged. -/
def configure_service (db : DB) (req : ServiceRequest) (now : ℤ) :
    (Nat × Option Service) × DB :=
  match upsert_service db req.service_key (patchOfRequest req) now with
  | .ok (svc, db') => ((200, some svc), db')
  | .error _ => ((500, none), db)

/-- The `cleanup_old_heartbeats` of `db.py`:
`delete_many({timestamp: {$lt: cutoff}})` with `cutoff = now - days`. -/
def cleanup_old_heartbeats (db : DB) (days : Int) (now : ℤ) : DB :=
  { db with
    heartbeats :=
      db.heartbeats.filter
        (fun h => !(h.timestamp < now - (days : ℤ) * 86400)) }

/-- Descending timestamp order on transitions
(`sort("timestamp", -1)` in `get_state_transitions`). -/
def tGE (a b : StateTransition) : Prop := b.timestamp ≤ a.timestamp

instance : DecidableRel tGE := fun a b =>
  inferInstanceAs (Decidable (b.timestamp ≤ a.timestamp))

instance : IsTotal StateTransition tGE := ⟨fun a b => le_total b.timestamp a.timestamp⟩

instance : IsTrans StateTransition tGE := ⟨fun _ _ _ hab hbc => le_trans hbc hab⟩

/-- Ascending timestamp order on transitions
(`sorted(transitions, key=lambda x: x.timestamp)`). -/
def tLE (a b : StateTransition) : Prop := a.timestamp ≤ b.timestamp

instance : DecidableRel tLE := fun a b =>
  inferInstanceAs (Decidable (a.timestamp ≤ b.timestamp))

instance : IsTotal StateTransition tLE := ⟨fun a b => le_total a.timestamp b.timestamp⟩

instance : IsTrans StateTransition tLE := ⟨fun _ _ _ hab hbc => le_trans hab hbc⟩

/-- The Mongo query document of `get_state_transitions` (`db.py`): the
`service_key` filter participates only when the argument is truthy, the
`alerted = false` filter only when `only_not_alerted` is true. -/
def matchesQuery (qkey : Option String) (only_not_alerted : Bool)
    (t : StateTransition) : Bool :=
  (if strTruthy qkey then t.service_key == qkey.getD "" else true) &&
  (if only_not_alerted then t.alerted == false else true)

/-- Python dict assignment `result[k] = v` on an association list:
replace the binding of `k` when present, else append it. -/
def dictInsert (d : List (String × StateTransition)) (k : String)
    (v : StateTransition) : List (String × StateTransition) :=
  match d with
  | [] => [(k, v)]
  | (k', v') :: rest =>
    if k' == k then (k, v) :: rest else (k', v') :: dictInsert rest k v

/-- Dict lookup on the association list built by `dictInsert`. -/
def dictGet (d : List (String × StateTransition)) (k : String) :
    Option StateTransition :=
  (d.find? (fun p => p.1 == k)).map Prod.snd

/-- The `get_state_transitions` of `db.py`: fetch the matching transitions
sorted descending by timestamp, truncated to `limit`; then build the
result dict by iterating over them sorted ascending by timestamp, so the
binding of every key is its most recent fetched transition. -/
def get_state_transitions (db : DB) (qkey : Option String) (limit : Nat)
    (only_not_alerted : Bool) : List (String × StateTransition) :=
  let fetched :=
    ((db.state_transitions.filter (matchesQuery qkey only_not_alerted)
      ).insertionSort tGE).take limit
  (fetched.insertionSort tLE).foldl
    (fun d t => dictInsert d t.service_key t) []

/-- The `GetStateTransitionsRequest` body of `POST /state-transitions`
(`main.py`), with its declared field defaults. -/
structure GetStateTransitionsRequest where
  service_key : Option String := none
  limit : Nat := 100
  only_not_alerted : Bool := false
deriving DecidableEq, Repr

/-- The store-mutating operations of the system: the two HTTP write
endpoints, one monitor-loop service evaluation, the acknowledge bulk
update, the retention cleanup, and a direct `record_state_transition`
call. -/
inductive DBOp where
  | heartbeatReq (key : String) (known : Bool) (now : ℤ)
      (metadata : List (String × String))
  | configureReq (req : ServiceRequest) (now : ℤ)
  | checkOne (key : String) (now : ℤ)
  | markAlertedReq (key : String)
  | cleanupHeartbeats (days : Int) (now : ℤ)
  | recordTransitionOp (key : String) (from_state to_state : ServiceStatus)
      (msg : Option String) (now : ℤ)

/-- Effect of each operation on the store.  A raised exception (the
`Except.error` results) leaves the store unchanged, matching the
endpoint-level `try/except` and the monitor-loop isolation. -/
def applyOp : DBOp → DB → DB
  | .heartbeatReq key known now metadata, db =>
    let db1 :=
      if known then db
      else { db with services := db.services ++ [newServiceFor key now] }
    store_heartbeat db1 key now metadata
  | .configureReq req now, db => (configure_service db req now).2
  | .checkOne key now, db =>
    match get_service db key with
    | none => db
    | some s =>
      match checkService db s now with
      | .ok (db', _) => db'
      | .error _ => db
  | .markAlertedReq key, db => (mark_service_transitions_alerted db key).2
  | .cleanupHeartbeats days now, db => cleanup_old_heartbeats db days now
  | .recordTransitionOp key from_state to_state msg now, db =>
    (record_state_transition db key from_state to_state msg now).2

/-! Concrete fixtures used by the counterexamples and witnesses. -/

/-- An auto-discovered service in heartbeat-statistics mode. -/
def hbSvc : Service := { service_key := "job-x" }

/-- Store with one single heartbeat for `job-x` at time 0. -/
def hbDB1 : DB :=
  { services := [hbSvc]
    heartbeats := [{ service_key := "job-x", timestamp := 0 }]
    state_transitions := [] }

/-- Store with heartbeats for `job-x` at t = 0, 60, 120, 180. -/
def hbDB4 : DB :=
  { services := [hbSvc]
    heartbeats :=
      [{ service_key := "job-x", timestamp := 0 },
       { service_key := "job-x", timestamp := 60 },
       { service_key := "job-x", timestamp := 120 },
       { service_key := "job-x", timestamp := 180 }]
    state_transitions := [] }

/-- A configured service: `expected_period = 300`, `dead_after` unset,
last update at time 0. -/
def cfgSvc : Service :=
  { service_key := "cfg-svc", expected_period := some 300
    updated_at := some 0 }

instance {ε α : Type _} [DecidableEq ε] [DecidableEq α] :
    DecidableEq (Except ε α) := fun a b =>
  match a, b with
  | .error e, .error f =>
    match decEq e f with
    | isTrue h => isTrue (h ▸ rfl)
    | isFalse h => isFalse fun hh => h (Except.error.inj hh)
  | .error _, .ok _ => isFalse fun hh => Except.noConfusion hh
  | .ok _, .error _ => isFalse fun hh => Except.noConfusion hh
  | .ok v, .ok w =>
    match decEq v w with
    | isTrue h => isTrue (h ▸ rfl)
    | isFalse h => isFalse fun hh => h (Except.ok.inj hh)

/-! More fixtures. -/

/-- The empty store. -/
def emptyDB : DB := { services := [], heartbeats := [], state_transitions := [] }

/-- The heartbeat-mode service with stored status DOWN. -/
def hbSvcDown : Service := { service_key := "job-x", status := .down }

/-- Store where `job-x` is stored DOWN but its 4 recent heartbeats imply
ALIVE at now = 200. -/
def hbDB4Down : DB :=
  { services := [hbSvcDown]
    heartbeats := hbDB4.heartbeats
    state_transitions := [] }

/-- The transition produced by evaluating `hbDB4Down` at now = 200. -/
def aliveTr : StateTransition :=
  { service_key := "job-x", from_state := .down, to_state := .alive
    timestamp := 200, alerted := false
    alert_message := some "Service job-x is back online!" }

/-- The store after evaluating `hbDB4Down` at now = 200. -/
def hbDB4DownAfter : DB :=
  { services :=
      [{ service_key := "job-x", status := .alive, updated_at := some 200 }]
    heartbeats := hbDB4.heartbeats
    state_transitions := [aliveTr] }

/-- A service with alerting switched off. -/
def offSvc : Service := { service_key := "off", alerts_enabled := false }

/-- Store holding only the alerts-disabled service. -/
def offDB : DB :=
  { services := [offSvc], heartbeats := [], state_transitions := [] }

/-- Store with two transitions of `job-x`: an old alerted one and the
newer `aliveTr`. -/
def trDB9 : DB :=
  { services := []
    heartbeats := []
    state_transitions :=
      [{ service_key := "job-x", from_state := .alive, to_state := .down
         timestamp := 100, alerted := true, alert_message := none },
       aliveTr] }

/-! Theorems. -/

/-! Helper lemmas about the heartbeat-statistics pipeline. -/

theorem mem_recentTimestampsDesc_cutoff {hbs : List Heartbeat} {key : String}
    {now t : ℤ} (h : t ∈ recentTimestampsDesc hbs key now) :
    now - sevenDays ≤ t := by
  unfold recentTimestampsDesc at h
  rw [List.mem_insertionSort, List.mem_map] at h
  obtain ⟨hb, hmem, rfl⟩ := h
  have hp := List.of_mem_filter hmem
  simp only [Bool.and_eq_true, decide_eq_true_eq] at hp
  exact hp.2

theorem heartbeatStatusFor_eq_some {hbs : List Heartbeat} {key : String}
    {now : ℤ} {i : HBInfo} (h : heartbeatStatusFor hbs key now = some i) :
    (recentTimestampsDesc hbs key now).head? = some i.last_heartbeat ∧
    i.heartbeat_count = (recentTimestampsDesc hbs key now).length ∧
    i.median_interval =
      (if 4 ≤ (recentTimestampsDesc hbs key now).length then
        medianStat (gapsOf (recentTimestampsDesc hbs key now))
      else none) := by
  unfold heartbeatStatusFor at h
  rw [Option.map_eq_some'] at h
  obtain ⟨t0, hh, rfl⟩ := h
  exact ⟨hh, rfl, rfl⟩

theorem heartbeatStatusFor_last_recent {hbs : List Heartbeat} {key : String}
    {now : ℤ} {i : HBInfo} (h : heartbeatStatusFor hbs key now = some i) :
    now - i.last_heartbeat ≤ sevenDays := by
  have h1 := (heartbeatStatusFor_eq_some h).1
  rw [List.head?_eq_some_iff] at h1
  obtain ⟨ys, hys⟩ := h1
  have hmem : i.last_heartbeat ∈ recentTimestampsDesc hbs key now := by
    rw [hys]; exact List.mem_cons_self _ _
  have := mem_recentTimestampsDesc_cutoff hmem
  omega

theorem heartbeatStatusFor_of_stale {hbs : List Heartbeat} {key : String}
    {now : ℤ}
    (h : ∀ hb ∈ hbs, hb.service_key = key → hb.timestamp < now - sevenDays) :
    heartbeatStatusFor hbs key now = none := by
  have hfil :
      hbs.filter
        (fun hb => hb.service_key == key && now - sevenDays ≤ hb.timestamp)
        = [] := by
    rw [List.filter_eq_nil_iff]
    intro hb hmem
    simp only [Bool.and_eq_true, beq_iff_eq, decide_eq_true_eq, not_and]
    intro hkey
    exact not_le.mpr (h hb hmem hkey)
  simp only [heartbeatStatusFor, recentTimestampsDesc]
  rw [hfil]
  rfl

theorem gapsOf_length (ts : List ℤ) : (gapsOf ts).length = ts.length - 1 := by
  simp only [gapsOf, List.length_zipWith, List.length_tail]
  omega

theorem medianStat_isSome {l : List ℤ} (h : l ≠ []) :
    ∃ m, medianStat l = some m := by
  have hlen : (l.insertionSort (· ≤ ·)).length = l.length :=
    List.length_insertionSort _ _
  have hpos : 0 < l.length := List.length_pos.mpr h
  have hidx : l.length / 2 < (l.insertionSort (· ≤ ·)).length := by
    rw [hlen]; exact Nat.div_lt_self hpos (by omega)
  exact ⟨_, List.getElem?_eq_getElem hidx⟩

/-! Claim C1. -/

/-- Claim C1 is false on the code.  With a single heartbeat 20 minutes old
(fewer than 4 heartbeats, most recent younger than 7 days) the inferred
status is DOWN, not UNKNOWN: `compute_status_from_heartbeats` receives
`median_interval = None` and applies the default 15-minute threshold.
With the most recent heartbeat older than 7 days the heartbeat is outside
the query window, the service has no heartbeat-status entry and the result
is UNKNOWN, not DEAD. -/
theorem C1_counterexample :
    (computedStatusFor hbDB1 hbSvc 1200 = ServiceStatus.down ∧
      ServiceStatus.down ≠ ServiceStatus.unknown) ∧
    (computedStatusFor hbDB1 hbSvc 700000 = ServiceStatus.unknown ∧
      ServiceStatus.unknown ≠ ServiceStatus.dead) := by
  decide

/-- Claim C1 amended: in heartbeat-statistics mode, when the recent
(7-day) history of a service is nonempty but holds fewer than 4
heartbeats, the inferred status follows the default thresholds — DOWN when
the most recent heartbeat is more than 15 minutes old, else ALIVE — and is
never UNKNOWN or DEAD; when the recent history is empty (no heartbeats at
all, or every heartbeat of the service older than 7 days) the status is
UNKNOWN. -/
theorem C1_amended : ∀ (db : DB) (s : Service) (now : ℤ),
    intTruthy s.expected_period = false →
    (heartbeatStatusFor db.heartbeats s.service_key now = none →
      computedStatusFor db s now = .unknown) ∧
    ((∀ hb ∈ db.heartbeats, hb.service_key = s.service_key →
        hb.timestamp < now - sevenDays) →
      computedStatusFor db s now = .unknown) ∧
    (∀ i, heartbeatStatusFor db.heartbeats s.service_key now = some i →
      i.heartbeat_count < 4 →
      computedStatusFor db s now =
        (if fifteenMinutes < now - i.last_heartbeat then .down else .alive) ∧
      computedStatusFor db s now ≠ .unknown ∧
      computedStatusFor db s now ≠ .dead) := by
  intro db s now hp
  refine ⟨?_, ?_, ?_⟩
  · intro h
    unfold computedStatusFor
    rw [hp]
    simp only [Bool.false_eq_true, if_false]
    rw [h]
  · intro h
    unfold computedStatusFor
    rw [hp]
    simp only [Bool.false_eq_true, if_false]
    rw [heartbeatStatusFor_of_stale h]
  · intro i hi hcount
    obtain ⟨lastv, medv, cntv⟩ := i
    obtain ⟨hhead, hcnt, hmed⟩ := heartbeatStatusFor_eq_some hi
    have hle := heartbeatStatusFor_last_recent hi
    simp only at hle hcount hcnt hmed hhead
    have hmednone : medv = none := by
      rw [hmed, if_neg (by omega)]
    subst hmednone
    have hcs : computedStatusFor db s now =
        compute_status_from_heartbeats lastv none now := by
      unfold computedStatusFor
      rw [hp]
      simp only [Bool.false_eq_true, if_false]
      rw [hi]
    have heval : compute_status_from_heartbeats lastv none now =
        (if fifteenMinutes < now - lastv then ServiceStatus.down
         else ServiceStatus.alive) := by
      show (if sevenDays < now - lastv then ServiceStatus.dead
        else if fifteenMinutes < now - lastv then ServiceStatus.down
        else ServiceStatus.alive) = _
      rw [if_neg (not_lt.mpr hle)]
    refine ⟨hcs.trans heval, ?_, ?_⟩ <;> rw [hcs, heval] <;> split <;> simp

/-- Witness for C1: the amended statement applied to the store with one
single heartbeat, 20 minutes before `now`. -/
theorem C1_witness :
    computedStatusFor hbDB1 hbSvc 1200 =
      (if fifteenMinutes < 1200 - (0:ℤ) then ServiceStatus.down
       else ServiceStatus.alive) :=
  ((C1_amended hbDB1 hbSvc 1200 (by decide)).2.2
    ⟨0, none, 1⟩ (by decide) (by decide)).1

/-! Claim C3. -/

/-- Claim C3 is false on the code at its own concrete instance: with
`expected_period = 300` and `dead_after` unset, 2100 seconds of silence
gives DOWN, not DEAD, because the DEAD comparison
`time_since_update > dead_after` is strict and `dead_after = 300 * 7 =
2100`. -/
theorem C3_counterexample :
    compute_status_from_config cfgSvc 2100 = ServiceStatus.down ∧
    ServiceStatus.down ≠ ServiceStatus.dead := by
  decide

/-- Claim C3 amended: in config-threshold mode with `updated_at = u` set,
the status is DEAD when `now - u` strictly exceeds `dead_after`
(defaulting to `7 * expected_period` when `dead_after` is unset), else
DOWN when `now - u` strictly exceeds `2 * expected_period`, else ALIVE;
with `updated_at` never set the status is DOWN unconditionally.  With
`expected_period = 300` and `dead_after` unset, 650 seconds of silence
gives DOWN, exactly 2100 seconds still gives DOWN (the threshold is
strict), and 2101 seconds gives DEAD. -/
theorem C3_amended :
    (∀ (s : Service) (now u : ℤ), intTruthy s.expected_period = true →
      s.updated_at = some u →
      compute_status_from_config s now =
        (if (if intTruthy s.dead_after then s.dead_after.getD 0
             else s.expected_period.getD 0 * 7) < now - u then
          ServiceStatus.dead
         else if s.expected_period.getD 0 * 2 < now - u then
          ServiceStatus.down
         else ServiceStatus.alive)) ∧
    (∀ (s : Service) (now : ℤ), intTruthy s.expected_period = true →
      s.updated_at = none →
      compute_status_from_config s now = ServiceStatus.down) ∧
    compute_status_from_config cfgSvc 650 = ServiceStatus.down ∧
    compute_status_from_config cfgSvc 2100 = ServiceStatus.down ∧
    compute_status_from_config cfgSvc 2101 = ServiceStatus.dead := by
  refine ⟨?_, ?_, by decide, by decide, by decide⟩
  · intro s now u hp hu
    unfold compute_status_from_config
    rw [hu, hp]
    rfl
  · intro s now _ hu
    unfold compute_status_from_config
    rw [hu]

/-- Witness for C3: the amended statement applied to the configured
service after 2101 seconds of silence. -/
theorem C3_witness :
    compute_status_from_config cfgSvc 2101 =
      (if (if intTruthy cfgSvc.dead_after then cfgSvc.dead_after.getD 0
           else cfgSvc.expected_period.getD 0 * 7) < 2101 - 0 then
        ServiceStatus.dead
       else if cfgSvc.expected_period.getD 0 * 2 < 2101 - 0 then
        ServiceStatus.down
       else ServiceStatus.alive) :=
  C3_amended.1 cfgSvc 2101 0 (by decide) rfl

/-! Claim C2. -/

/-- Claim C2: in heartbeat-statistics mode, for a service with at least 4
heartbeats inside the last 7 days the inferred status is DEAD when the
time since the most recent heartbeat strictly exceeds 7 days, else DOWN
when it strictly exceeds twice the median of the consecutive inter-arrival
intervals, else ALIVE; heartbeats at t = 0, 60, 120, 180 with now = 200
give median 60 and ALIVE, and the same history with now = 400 gives
DOWN. -/
theorem C2_claim :
    (∀ (db : DB) (s : Service) (now : ℤ) (i : HBInfo),
      intTruthy s.expected_period = false →
      heartbeatStatusFor db.heartbeats s.service_key now = some i →
      4 ≤ i.heartbeat_count →
      i.median_interval =
        medianStat
          (gapsOf (recentTimestampsDesc db.heartbeats s.service_key now)) ∧
      ∃ m, i.median_interval = some m ∧
        computedStatusFor db s now =
          (if sevenDays < now - i.last_heartbeat then ServiceStatus.dead
           else if 2 * m < now - i.last_heartbeat then ServiceStatus.down
           else ServiceStatus.alive)) ∧
    computedStatusFor hbDB4 hbSvc 200 = ServiceStatus.alive ∧
    computedStatusFor hbDB4 hbSvc 400 = ServiceStatus.down ∧
    heartbeatStatusFor hbDB4.heartbeats "job-x" 200 =
      some ⟨180, some 60, 4⟩ := by
  refine ⟨?_, by decide, by decide, by decide⟩
  intro db s now i hp hi hcount
  obtain ⟨lastv, medv, cntv⟩ := i
  obtain ⟨hhead, hcnt, hmed⟩ := heartbeatStatusFor_eq_some hi
  simp only at hhead hcnt hmed hcount
  have h4 : 4 ≤ (recentTimestampsDesc db.heartbeats s.service_key now).length := by
    omega
  have hne : gapsOf (recentTimestampsDesc db.heartbeats s.service_key now) ≠ [] := by
    intro hnil
    have hlen := gapsOf_length (recentTimestampsDesc db.heartbeats s.service_key now)
    rw [hnil] at hlen
    simp only [List.length_nil] at hlen
    omega
  obtain ⟨m, hm⟩ := medianStat_isSome hne
  have hms : medv = some m := by
    rw [hmed, if_pos h4, hm]
  subst hms
  rw [if_pos h4] at hmed
  refine ⟨hmed, m, rfl, ?_⟩
  have hcs : computedStatusFor db s now =
      compute_status_from_heartbeats lastv (some m) now := by
    unfold computedStatusFor
    rw [hp]
    simp only [Bool.false_eq_true, if_false]
    rw [hi]
  rw [hcs]
  rfl

/-- Witness for C2: the general statement applied to the store with
heartbeats at t = 0, 60, 120, 180 and now = 200. -/
theorem C2_witness :
    (⟨180, some 60, 4⟩ : HBInfo).median_interval =
      medianStat
        (gapsOf (recentTimestampsDesc hbDB4.heartbeats hbSvc.service_key 200)) ∧
    ∃ m, (⟨180, some 60, 4⟩ : HBInfo).median_interval = some m ∧
      computedStatusFor hbDB4 hbSvc 200 =
        (if sevenDays < 200 - (⟨180, some 60, 4⟩ : HBInfo).last_heartbeat then
          ServiceStatus.dead
         else if 2 * m < 200 - (⟨180, some 60, 4⟩ : HBInfo).last_heartbeat then
          ServiceStatus.down
         else ServiceStatus.alive) :=
  C2_claim.1 hbDB4 hbSvc 200 ⟨180, some 60, 4⟩ (by decide) (by decide)
    (by decide)

/-! Helper lemmas about the transition-recording pipeline. -/

theorem applyPatch_service_key (p : ServicePatch) (now : ℤ) (s : Service) :
    (applyPatch p now s).service_key = s.service_key := rfl

theorem applyPatch_status_alerts (c : ServiceStatus) (now : ℤ) (s : Service) :
    (applyPatch { status := some c } now s).alerts_enabled =
      s.alerts_enabled := rfl

theorem find?_updateFirstService {l : List Service} {key : String}
    {s : Service} (f : Service → Service)
    (hf : ∀ x, (f x).service_key = x.service_key)
    (h : l.find? (fun x => x.service_key == key) = some s) :
    (updateFirstService l key f).find? (fun x => x.service_key == key) =
      some (f s) := by
  induction l with
  | nil => simp at h
  | cons a l ih =>
    unfold updateFirstService
    by_cases ha : (a.service_key == key) = true
    · rw [if_pos ha]
      rw [List.find?_cons_of_pos
        (p := fun x : Service => x.service_key == key) _ ha] at h
      injection h with h'
      subst h'
      exact List.find?_cons_of_pos
        (p := fun x : Service => x.service_key == key) _
        (by show ((f a).service_key == key) = true; rw [hf a]; exact ha)
    · rw [if_neg ha]
      rw [List.find?_cons_of_neg
        (p := fun x : Service => x.service_key == key) _ ha] at h
      rw [List.find?_cons_of_neg
        (p := fun x : Service => x.service_key == key) _ ha]
      exact ih h

theorem upsert_status_ok {db : DB} {key : String} {s : Service}
    {computed : ServiceStatus} {now : ℤ} (hg : get_service db key = some s)
    (hne : computed ≠ s.status) :
    upsert_service db key { status := some computed } now =
      .ok (applyPatch { status := some computed } now s,
        { db with
          services :=
            updateFirstService db.services key
              (applyPatch { status := some computed } now) }) := by
  have hne' : applyPatch { status := some computed } now s ≠ s :=
    fun he => hne (congrArg Service.status he)
  unfold upsert_service
  rw [hg]
  simp only [hne', if_false, ite_false]

/-- Full characterization of one monitor-loop service evaluation, given
that the service document is the one found under its key. -/
theorem checkService_spec {db : DB} {s : Service} {now : ℤ}
    (hg : get_service db s.service_key = some s) :
    checkService db s now =
      (if computedStatusFor db s now = s.status then .ok (db, none)
       else
         let c := computedStatusFor db s now
         let db1 : DB :=
           { db with
             services :=
               updateFirstService db.services s.service_key
                 (applyPatch { status := some c } now) }
         let msg := composeMessage s.service_key c
           (heartbeatStatusFor db.heartbeats s.service_key now) now
         let tr : StateTransition :=
           { service_key := s.service_key, from_state := s.status
             to_state := c, timestamp := now, alerted := false
             alert_message := msg }
         if s.alerts_enabled then
           .ok ({ db1 with
                  state_transitions := db1.state_transitions ++ [tr] },
             some tr)
         else .ok (db1, none)) := by
  by_cases hc : computedStatusFor db s now = s.status
  · rw [if_pos hc]
    unfold checkService
    rw [if_pos hc]
  · rw [if_neg hc]
    unfold checkService
    rw [if_neg hc, upsert_status_ok hg hc]
    have hg1 :
        get_service
          { db with
            services :=
              updateFirstService db.services s.service_key
                (applyPatch { status := some (computedStatusFor db s now) } now) }
          s.service_key =
        some (applyPatch { status := some (computedStatusFor db s now) } now s) := by
      unfold get_service at hg ⊢
      exact find?_updateFirstService _ (fun x => rfl) hg
    unfold record_state_transition
    dsimp only
    rw [hg1]
    dsimp only
    rw [applyPatch_status_alerts]
    cases hae : s.alerts_enabled
    · rfl
    · rfl

/-! Claim C4. -/

/-- Claim C4: a single monitor-loop evaluation of a service writes a
StateTransition record if and only if the computed status differs from
the stored status and the service has `alerts_enabled = true`; when
`alerts_enabled` is false and the status differs, the stored status and
`updated_at` are still updated but no transition record is written. -/
theorem C4_claim : ∀ (db : DB) (s : Service) (now : ℤ) (db' : DB)
    (otr : Option StateTransition),
    get_service db s.service_key = some s →
    checkService db s now = .ok (db', otr) →
    ((∃ tr, db'.state_transitions = db.state_transitions ++ [tr]) ↔
      (computedStatusFor db s now ≠ s.status ∧ s.alerts_enabled = true)) ∧
    (s.alerts_enabled = false → computedStatusFor db s now ≠ s.status →
      db'.state_transitions = db.state_transitions ∧
      get_service db' s.service_key =
        some { s with status := computedStatusFor db s now
                      updated_at := some now }) := by
  intro db s now db' otr hg h
  rw [checkService_spec hg] at h
  by_cases hc : computedStatusFor db s now = s.status
  · rw [if_pos hc] at h
    simp only [Except.ok.injEq, Prod.mk.injEq] at h
    obtain ⟨rfl, rfl⟩ := h
    refine ⟨⟨?_, ?_⟩, ?_⟩
    · rintro ⟨tr, htr⟩
      exfalso
      have := congrArg List.length htr
      simp at this
    · rintro ⟨hne, _⟩
      exact absurd hc hne
    · intro _ hne
      exact absurd hc hne
  · rw [if_neg hc] at h
    dsimp only at h
    by_cases hae : s.alerts_enabled = true
    · rw [if_pos hae] at h
      simp only [Except.ok.injEq, Prod.mk.injEq] at h
      obtain ⟨rfl, rfl⟩ := h
      refine ⟨⟨?_, ?_⟩, ?_⟩
      · intro _
        exact ⟨hc, hae⟩
      · intro _
        exact ⟨_, rfl⟩
      · intro hfalse _
        rw [hfalse] at hae
        exact absurd hae (by decide)
    · rw [if_neg hae] at h
      simp only [Except.ok.injEq, Prod.mk.injEq] at h
      obtain ⟨rfl, rfl⟩ := h
      refine ⟨⟨?_, ?_⟩, ?_⟩
      · rintro ⟨tr, htr⟩
        exfalso
        have := congrArg List.length htr
        simp at this
      · rintro ⟨_, htrue⟩
        exact absurd htrue hae
      · intro _ _
        refine ⟨rfl, ?_⟩
        exact find?_updateFirstService
          (applyPatch { status := some (computedStatusFor db s now) } now)
          (fun x => rfl) hg

/-- Witness for C4: evaluating the DOWN-stored service whose heartbeats
imply ALIVE produces exactly one appended transition record. -/
theorem C4_witness :
    (∃ tr, hbDB4DownAfter.state_transitions =
      hbDB4Down.state_transitions ++ [tr]) ↔
    (computedStatusFor hbDB4Down hbSvcDown 200 ≠ hbSvcDown.status ∧
      hbSvcDown.alerts_enabled = true) :=
  (C4_claim hbDB4Down hbSvcDown 200 hbDB4DownAfter (some aliveTr)
    (by decide) (by decide)).1

/-! Claim C7. -/

/-- Claim C7 is false on the code: the composed alert message for a
transition to ALIVE is `"Service <key> is back online!"`, with a
`"Service "` text the claimed exact template `"<key> is back online!"`
does not contain. -/
theorem C7_counterexample :
    checkService hbDB4Down hbSvcDown 200 =
      .ok (hbDB4DownAfter, some aliveTr) ∧
    aliveTr.to_state = ServiceStatus.alive ∧
    aliveTr.alert_message ≠ some ("job-x" ++ " is back online!") := by
  decide

/-- Claim C7 amended: when the monitor loop records a status change, the
alert message is exactly `"Service <key> is back online!"` for a
transition to ALIVE, exactly
`"Service <key> is <status>. Last seen: <timestamp>"` for a transition to
DOWN or DEAD (the timestamp being the most recent heartbeat when recent
heartbeat data exists, else the just-written update time), and absent for
a transition to UNKNOWN. -/
theorem C7_amended : ∀ (db : DB) (s : Service) (now : ℤ) (db' : DB)
    (tr : StateTransition),
    get_service db s.service_key = some s →
    checkService db s now = .ok (db', some tr) →
    tr.to_state = computedStatusFor db s now ∧
    (tr.to_state = .alive →
      tr.alert_message =
        some ("Service " ++ s.service_key ++ " is back online!")) ∧
    (tr.to_state = .down ∨ tr.to_state = .dead →
      tr.alert_message =
        some ("Service " ++ s.service_key ++ " is " ++
          statusValue tr.to_state ++ ". Last seen: " ++
          (match heartbeatStatusFor db.heartbeats s.service_key now with
           | some info => formatDatetime info.last_heartbeat
           | none => formatDatetime now))) ∧
    (tr.to_state = .unknown → tr.alert_message = none) := by
  intro db s now db' tr hg h
  rw [checkService_spec hg] at h
  by_cases hc : computedStatusFor db s now = s.status
  · rw [if_pos hc] at h
    simp at h
  · rw [if_neg hc] at h
    dsimp only at h
    by_cases hae : s.alerts_enabled = true
    · rw [if_pos hae] at h
      simp only [Except.ok.injEq, Prod.mk.injEq, Option.some.injEq] at h
      obtain ⟨-, rfl⟩ := h
      refine ⟨rfl, ?_, ?_, ?_⟩
      · intro h2
        dsimp only at h2
        rw [h2]
        rfl
      · intro h2
        dsimp only at h2
        cases h2 with
        | inl h2 => rw [h2]; rfl
        | inr h2 => rw [h2]; rfl
      · intro h2
        dsimp only at h2
        rw [h2]
        rfl
    · rw [if_neg hae] at h
      simp at h

/-- Witness for C7: the amended statement applied to the evaluation that
records the DOWN to ALIVE transition of `job-x`. -/
theorem C7_witness :
    aliveTr.to_state = computedStatusFor hbDB4Down hbSvcDown 200 ∧
    (aliveTr.to_state = .alive →
      aliveTr.alert_message =
        some ("Service " ++ hbSvcDown.service_key ++ " is back online!")) ∧
    (aliveTr.to_state = .down ∨ aliveTr.to_state = .dead →
      aliveTr.alert_message =
        some ("Service " ++ hbSvcDown.service_key ++ " is " ++
          statusValue aliveTr.to_state ++ ". Last seen: " ++
          (match heartbeatStatusFor hbDB4Down.heartbeats
              hbSvcDown.service_key 200 with
           | some info => formatDatetime info.last_heartbeat
           | none => formatDatetime 200))) ∧
    (aliveTr.to_state = .unknown → aliveTr.alert_message = none) :=
  C7_amended hbDB4Down hbSvcDown 200 hbDB4DownAfter aliveTr (by decide)
    (by decide)

/-! Claim C8. -/

/-- Claim C8 is false on the code: configuring an unconfigured
`service_key` makes `upsert_service` raise `ValueError`, which the
endpoint catches and surfaces as `HTTPException(status_code=500)` — an
HTTP 500 server error, not a 404-equivalent client error. -/
theorem C8_counterexample :
    (configure_service emptyDB { service_key := "job-x" } 0).1.1 = 500 ∧
    (500 : Nat) ≠ 404 ∧ ¬(400 ≤ 500 ∧ 500 < 500) := by
  decide

/-- Claim C8 amended: the configure-service partial update on an
unconfigured `service_key` fails with the `ValueError`
`"Failed to update service: <key>"` and is surfaced to the caller as an
HTTP 500 server error with the store unchanged; no 404-equivalent is
produced. -/
theorem C8_amended : ∀ (db : DB) (req : ServiceRequest) (now : ℤ),
    get_service db req.service_key = none →
    upsert_service db req.service_key (patchOfRequest req) now =
      .error ("Failed to update service: " ++ req.service_key) ∧
    configure_service db req now = ((500, none), db) := by
  intro db req now hg
  have h1 : upsert_service db req.service_key (patchOfRequest req) now =
      .error ("Failed to update service: " ++ req.service_key) := by
    unfold upsert_service
    rw [hg]
  refine ⟨h1, ?_⟩
  unfold configure_service
  rw [h1]

/-- Witness for C8: the amended statement applied to the empty store. -/
theorem C8_witness :
    upsert_service emptyDB "job-x"
      (patchOfRequest { service_key := "job-x" }) 0 =
      .error ("Failed to update service: " ++ "job-x") ∧
    configure_service emptyDB { service_key := "job-x" } 0 =
      ((500, none), emptyDB) :=
  C8_amended emptyDB { service_key := "job-x" } 0 (by decide)

/-! Claim C10. -/

/-- Claim C10: `record_state_transition` writes nothing and returns
`None` both when no service document exists for the key and when the
service has `alerts_enabled = false`; a status change for an absent
service key therefore never produces a transition record,
indistinguishably from the alerts-disabled case. -/
theorem C10_claim : ∀ (db : DB) (key : String)
    (from_state to_state : ServiceStatus) (msg : Option String) (now : ℤ),
    (get_service db key = none →
      record_state_transition db key from_state to_state msg now =
        (none, db)) ∧
    (∀ s, get_service db key = some s → s.alerts_enabled = false →
      record_state_transition db key from_state to_state msg now =
        (none, db)) := by
  intro db key from_state to_state msg now
  constructor
  · intro hg
    unfold record_state_transition
    rw [hg]
  · intro s hg hae
    unfold record_state_transition
    rw [hg]
    dsimp only
    rw [hae]
    rfl

/-- Witness for C10: a missing key and an alerts-disabled service give
the identical no-write result. -/
theorem C10_witness :
    record_state_transition emptyDB "ghost" .alive .down none 5 =
      (none, emptyDB) ∧
    record_state_transition offDB "off" .alive .down none 5 =
      (none, offDB) :=
  ⟨(C10_claim emptyDB "ghost" .alive .down none 5).1 (by decide),
   (C10_claim offDB "off" .alive .down none 5).2 offSvc (by decide)
     (by decide)⟩

/-! Claim C6. -/

theorem sortAsc_append_max (l : List ℤ) (x : ℤ) (hx : ∀ a ∈ l, a ≤ x) :
    (l ++ [x]).insertionSort (· ≤ ·) = (l.insertionSort (· ≤ ·)) ++ [x] := by
  have hperm : List.Perm ((l ++ [x]).insertionSort (· ≤ ·))
      ((l.insertionSort (· ≤ ·)) ++ [x]) :=
    (List.perm_insertionSort _ _).trans
      (List.Perm.append_right [x] (List.perm_insertionSort _ l).symm)
  have h1 : List.Sorted (· ≤ ·) ((l ++ [x]).insertionSort (· ≤ ·)) :=
    List.sorted_insertionSort _ _
  have h2 : List.Sorted (· ≤ ·) ((l.insertionSort (· ≤ ·)) ++ [x]) := by
    refine List.pairwise_append.mpr
      ⟨List.sorted_insertionSort _ _, List.pairwise_singleton _ _, ?_⟩
    intro a ha b hb
    rw [List.mem_singleton] at hb
    subst hb
    exact hx a ((List.mem_insertionSort _).mp ha)
  exact List.eq_of_perm_of_sorted hperm h1 h2

theorem medianStat_append_large (l : List ℤ) (x y : ℤ) (hlen : 2 ≤ l.length)
    (hx : ∀ a ∈ l, a ≤ x) (hy : x ≤ y) :
    medianStat (l ++ [x]) = medianStat (l ++ [y]) := by
  have hxy : ∀ a ∈ l, a ≤ y := fun a ha => le_trans (hx a ha) hy
  unfold medianStat
  rw [sortAsc_append_max l x hx, sortAsc_append_max l y hxy]
  have hidx : (l ++ [x]).length / 2 < (l.insertionSort (· ≤ ·)).length := by
    rw [List.length_insertionSort]
    simp only [List.length_append, List.length_singleton]
    omega
  have hidy : (l ++ [y]).length / 2 < (l.insertionSort (· ≤ ·)).length := by
    rw [List.length_insertionSort]
    simp only [List.length_append, List.length_singleton]
    omega
  rw [List.getElem?_append_left hidx, List.getElem?_append_left hidy]
  simp only [List.length_append, List.length_singleton]

/-- Claim C6: for a service with at least 4 recent heartbeats, the
interval statistic used by status inference is the order statistic at
index `len / 2` of the ascending-sorted list of consecutive inter-arrival
gaps; enlarging one gap that already dominates every other gap does not
change the statistic; and on a skewed gap list the statistic differs from
the mean. -/
theorem C6_claim :
    (∀ (hbs : List Heartbeat) (key : String) (now : ℤ) (i : HBInfo),
      heartbeatStatusFor hbs key now = some i → 4 ≤ i.heartbeat_count →
      i.median_interval =
        ((gapsOf (recentTimestampsDesc hbs key now)).insertionSort
          (· ≤ ·))[(gapsOf (recentTimestampsDesc hbs key now)).length / 2]?) ∧
    (∀ (l : List ℤ) (x y : ℤ), 2 ≤ l.length → (∀ a ∈ l, a ≤ x) → x ≤ y →
      medianStat (l ++ [x]) = medianStat (l ++ [y])) ∧
    medianStat [60, 60, 60, 6000] = some 60 ∧
    ((60 + 60 + 60 + 6000) / 4 : ℤ) ≠ 60 := by
  refine ⟨?_, medianStat_append_large, by decide, by decide⟩
  intro hbs key now i hi hcount
  obtain ⟨hhead, hcnt, hmed⟩ := heartbeatStatusFor_eq_some hi
  rw [hmed, if_pos (by omega)]
  rfl

/-- Witness for C6: enlarging the dominating gap of `[60, 60, 70]` to
7000 leaves the median statistic unchanged. -/
theorem C6_witness :
    medianStat ([60, 60] ++ [70]) = medianStat ([60, 60] ++ [7000]) :=
  C6_claim.2.1 [60, 60] 70 7000 (by decide) (by decide) (by decide)

/-! Claim C5: shape lemmas for every store-mutating operation. -/

theorem upsert_ok_shape {db : DB} {key : String} {p : ServicePatch}
    {now : ℤ} {svc : Service} {db' : DB}
    (h : upsert_service db key p now = .ok (svc, db')) :
    db' = { db with
      services := updateFirstService db.services key (applyPatch p now) } := by
  unfold upsert_service at h
  cases hg : get_service db key with
  | none =>
    rw [hg] at h
    simp at h
  | some s =>
    rw [hg] at h
    dsimp only at h
    by_cases he : applyPatch p now s = s
    · rw [if_pos he] at h
      simp at h
    · rw [if_neg he] at h
      simp only [Except.ok.injEq, Prod.mk.injEq] at h
      exact h.2.symm

theorem record_pair_shape {db : DB} {key : String}
    {from_state to_state : ServiceStatus} {msg : Option String} {now : ℤ}
    {otr : Option StateTransition} {db' : DB}
    (h : record_state_transition db key from_state to_state msg now =
      (otr, db')) :
    (otr = none ∧ db' = db) ∨
    (∃ tr, otr = some tr ∧ tr.alerted = false ∧
      db' = { db with
        state_transitions := db.state_transitions ++ [tr] }) := by
  unfold record_state_transition at h
  cases hg : get_service db key with
  | none =>
    rw [hg] at h
    simp only [Prod.mk.injEq] at h
    exact Or.inl ⟨h.1.symm, h.2.symm⟩
  | some s =>
    rw [hg] at h
    dsimp only at h
    by_cases hbe : s.alerts_enabled = true
    · rw [hbe] at h
      simp only [Bool.not_true, Bool.false_eq_true, if_false, ite_false,
        Prod.mk.injEq] at h
      exact Or.inr ⟨_, h.1.symm, rfl, h.2.symm⟩
    · have hbe' : s.alerts_enabled = false := by
        cases hx : s.alerts_enabled
        · rfl
        · exact absurd hx hbe
      rw [hbe'] at h
      simp only [Bool.not_false, eq_self_iff_true, if_true, ite_true,
        Prod.mk.injEq] at h
      exact Or.inl ⟨h.1.symm, h.2.symm⟩

theorem checkService_ok_shape {db : DB} {s : Service} {now : ℤ} {db' : DB}
    {otr : Option StateTransition}
    (h : checkService db s now = .ok (db', otr)) :
    db'.state_transitions = db.state_transitions ∨
    (∃ tr, otr = some tr ∧ tr.alerted = false ∧
      db'.state_transitions = db.state_transitions ++ [tr]) := by
  unfold checkService at h
  by_cases hc : computedStatusFor db s now = s.status
  · rw [if_pos hc] at h
    simp only [Except.ok.injEq, Prod.mk.injEq] at h
    exact Or.inl (congrArg DB.state_transitions h.1.symm)
  · rw [if_neg hc] at h
    dsimp only at h
    cases hup : upsert_service db s.service_key
        { status := some (computedStatusFor db s now) } now with
    | error e =>
      rw [hup] at h
      simp at h
    | ok p =>
      obtain ⟨svc, db1⟩ := p
      rw [hup] at h
      dsimp only at h
      have hdb1 : db1.state_transitions = db.state_transitions := by
        rw [upsert_ok_shape hup]
      cases hrec : record_state_transition db1 s.service_key s.status
          (computedStatusFor db s now)
          (composeMessage s.service_key (computedStatusFor db s now)
            (heartbeatStatusFor db.heartbeats s.service_key now) now) now with
      | mk otr2 db2 =>
        rw [hrec] at h
        dsimp only at h
        simp only [Except.ok.injEq, Prod.mk.injEq] at h
        obtain ⟨rfl, rfl⟩ := h
        rcases record_pair_shape hrec with ⟨-, rfl⟩ | ⟨tr, rfl, hal, rfl⟩
        · exact Or.inl hdb1
        · exact Or.inr ⟨tr, rfl, hal, by dsimp only; rw [hdb1]⟩

theorem applyOp_preserves_transitions (op : DBOp) (db : DB) (n : Nat)
    (tr : StateTransition) (hmark : ∀ key, op ≠ DBOp.markAlertedReq key)
    (h : db.state_transitions[n]? = some tr) :
    (applyOp op db).state_transitions[n]? = some tr := by
  obtain ⟨hlt, -⟩ := List.getElem?_eq_some.mp h
  cases op with
  | heartbeatReq key known now metadata =>
    cases known
    · exact h
    · exact h
  | configureReq req now =>
    show (configure_service db req now).2.state_transitions[n]? = some tr
    unfold configure_service
    cases hup : upsert_service db req.service_key (patchOfRequest req) now with
    | error e => exact h
    | ok p =>
      obtain ⟨svc, db1⟩ := p
      dsimp only
      rw [upsert_ok_shape hup]
      exact h
  | checkOne key now =>
    show (match get_service db key with
      | none => db
      | some s =>
        match checkService db s now with
        | .ok (db', _) => db'
        | .error _ => db).state_transitions[n]? = some tr
    cases hgk : get_service db key with
    | none => exact h
    | some s =>
      dsimp only
      cases hcs : checkService db s now with
      | error e => exact h
      | ok p =>
        obtain ⟨db', otr⟩ := p
        dsimp only
        rcases checkService_ok_shape hcs with hsame | ⟨tr2, -, -, happ⟩
        · rw [hsame]
          exact h
        · rw [happ, List.getElem?_append_left hlt]
          exact h
  | markAlertedReq key => exact absurd rfl (hmark key)
  | cleanupHeartbeats days now => exact h
  | recordTransitionOp key from_state to_state msg now =>
    show (record_state_transition db key from_state to_state msg
      now).2.state_transitions[n]? = some tr
    cases hrec : record_state_transition db key from_state to_state msg now
      with
    | mk otr2 db2 =>
      dsimp only
      rcases record_pair_shape hrec with ⟨-, rfl⟩ | ⟨tr2, -, -, rfl⟩
      · exact h
      · dsimp only
        rw [List.getElem?_append_left hlt]
        exact h

/-- Claim C5: every StateTransition is created with `alerted = false`;
the acknowledge operation flips `alerted` from false to true for every
transition of the given service key (leaving all other transitions
unchanged, and afterwards every transition of that key is alerted) and
returns the count of transitions flipped; every other store operation of
the system leaves existing transitions untouched; and under every
operation the `alerted` flag is monotone — once true it never becomes
false. -/
theorem C5_claim :
    (∀ (db : DB) (key : String) (from_state to_state : ServiceStatus)
        (msg : Option String) (now : ℤ) (tr : StateTransition) (db' : DB),
      record_state_transition db key from_state to_state msg now =
        (some tr, db') →
      tr.alerted = false) ∧
    (∀ (db : DB) (key : String) (n : Nat) (tr : StateTransition),
      db.state_transitions[n]? = some tr →
      (tr.service_key = key → tr.alerted = false →
        (mark_service_transitions_alerted db
          key).2.state_transitions[n]? =
          some { tr with alerted := true }) ∧
      (¬(tr.service_key = key ∧ tr.alerted = false) →
        (mark_service_transitions_alerted db
          key).2.state_transitions[n]? = some tr)) ∧
    (∀ (db : DB) (key : String),
      (∀ tr ∈ (mark_service_transitions_alerted db
          key).2.state_transitions,
        tr.service_key = key → tr.alerted = true) ∧
      (mark_service_transitions_alerted db key).1 =
        (db.state_transitions.filter
          (fun t => t.service_key == key && t.alerted == false)).length) ∧
    (∀ (op : DBOp) (db : DB) (n : Nat) (tr : StateTransition),
      (∀ key, op ≠ DBOp.markAlertedReq key) →
      db.state_transitions[n]? = some tr →
      (applyOp op db).state_transitions[n]? = some tr) ∧
    (∀ (op : DBOp) (db : DB) (n : Nat) (tr : StateTransition),
      db.state_transitions[n]? = some tr → tr.alerted = true →
      ∃ tr', (applyOp op db).state_transitions[n]? = some tr' ∧
        tr'.alerted = true) := by
  refine ⟨?_, ?_, ?_, applyOp_preserves_transitions, ?_⟩
  · intro db key from_state to_state msg now tr db' h
    rcases record_pair_shape h with ⟨hnone, -⟩ | ⟨tr2, hsome, hal, -⟩
    · cases hnone
    · injection hsome with hsome
      rw [hsome]
      exact hal
  · intro db key n tr h
    have hmap : (mark_service_transitions_alerted db
        key).2.state_transitions =
      db.state_transitions.map
        (fun t => if t.service_key == key && t.alerted == false then
          { t with alerted := true } else t) := rfl
    constructor
    · intro htrk hal
      rw [hmap, List.getElem?_map, h]
      simp only [Option.map_some']
      rw [if_pos (by simp [htrk, hal])]
    · intro hnot
      rw [hmap, List.getElem?_map, h]
      simp only [Option.map_some']
      rw [if_neg]
      intro hcond
      apply hnot
      simp only [Bool.and_eq_true, beq_iff_eq] at hcond
      exact hcond
  · intro db key
    constructor
    · intro tr hmem htrk
      have hmap : (mark_service_transitions_alerted db
          key).2.state_transitions =
        db.state_transitions.map
          (fun t => if t.service_key == key && t.alerted == false then
            { t with alerted := true } else t) := rfl
      rw [hmap] at hmem
      obtain ⟨u, hu, hfu⟩ := List.mem_map.mp hmem
      by_cases hcond : (u.service_key == key && u.alerted == false) = true
      · rw [if_pos hcond] at hfu
        rw [← hfu]
      · rw [if_neg hcond] at hfu
        subst hfu
        simp only [Bool.and_eq_true, beq_iff_eq, not_and] at hcond
        have hcond' := hcond htrk
        cases hua : u.alerted
        · exact absurd (by rw [hua]) hcond'
        · rfl
    · rfl
  · intro op db n tr h hal
    by_cases hmark : ∀ key, op ≠ DBOp.markAlertedReq key
    · exact ⟨tr, applyOp_preserves_transitions op db n tr hmark h, hal⟩
    · push_neg at hmark
      obtain ⟨key, rfl⟩ := hmark
      refine ⟨if tr.service_key == key && tr.alerted == false then
        { tr with alerted := true } else tr, ?_, ?_⟩
      · show (db.state_transitions.map
          (fun t => if t.service_key == key && t.alerted == false then
            { t with alerted := true } else t))[n]? = _
        rw [List.getElem?_map, h]
        rfl
      · by_cases hcond : (tr.service_key == key && tr.alerted == false) = true
        · rw [if_pos hcond]
        · rw [if_neg hcond]
          exact hal

/-- Witness for C5: the monotone clause applied to the acknowledge
operation on a store holding one already-alerted transition. -/
theorem C5_witness :
    ∃ tr', (applyOp (DBOp.markAlertedReq "job-x")
      { services := []
        heartbeats := []
        state_transitions :=
          [{ service_key := "job-x", from_state := .alive, to_state := .down
             timestamp := 7, alerted := true
             alert_message := none }] }).state_transitions[0]? = some tr' ∧
      tr'.alerted = true :=
  C5_claim.2.2.2.2 (DBOp.markAlertedReq "job-x")
    { services := []
      heartbeats := []
      state_transitions :=
        [{ service_key := "job-x", from_state := .alive, to_state := .down
           timestamp := 7, alerted := true, alert_message := none }] }
    0
    { service_key := "job-x", from_state := .alive, to_state := .down
      timestamp := 7, alerted := true, alert_message := none }
    (by decide) (by decide)

/-! Claim C9: helper lemmas about the dict built by
`get_state_transitions`. -/

theorem dictGet_dictInsert_self (d : List (String × StateTransition))
    (k : String) (v : StateTransition) :
    dictGet (dictInsert d k v) k = some v := by
  induction d with
  | nil => simp [dictInsert, dictGet]
  | cons p rest ih =>
    obtain ⟨k', v'⟩ := p
    unfold dictInsert
    by_cases hk : (k' == k) = true
    · rw [if_pos hk]
      simp [dictGet]
    · rw [if_neg hk]
      unfold dictGet at ih ⊢
      rw [List.find?_cons_of_neg
        (p := fun q : String × StateTransition => q.1 == k) _ hk]
      exact ih

theorem dictGet_dictInsert_other (d : List (String × StateTransition))
    (k k' : String) (v : StateTransition) (hk : k' ≠ k) :
    dictGet (dictInsert d k v) k' = dictGet d k' := by
  induction d with
  | nil =>
    simp only [dictInsert, dictGet, List.find?]
    have : (k == k') = false := by
      rw [beq_eq_false_iff_ne]
      exact fun he => hk he.symm
    rw [this]
  | cons p rest ih =>
    obtain ⟨k₀, v₀⟩ := p
    unfold dictInsert
    by_cases hk0 : (k₀ == k) = true
    · rw [if_pos hk0]
      unfold dictGet
      have hkk' : (k == k') = false := by
        rw [beq_eq_false_iff_ne]
        exact fun he => hk he.symm
      have hk0k' : (k₀ == k') = false := by
        rw [beq_eq_false_iff_ne]
        intro he
        rw [beq_iff_eq] at hk0
        exact hk (he.symm.trans hk0)
      rw [List.find?_cons_of_neg
        (p := fun q : String × StateTransition => q.1 == k') _ (by
          show ¬(k == k') = true
          rw [hkk']
          exact Bool.false_ne_true)]
      rw [List.find?_cons_of_neg
        (p := fun q : String × StateTransition => q.1 == k') _ (by
          show ¬(k₀ == k') = true
          rw [hk0k']
          exact Bool.false_ne_true)]
    · rw [if_neg hk0]
      unfold dictGet at ih ⊢
      by_cases hk0' : (k₀ == k') = true
      · rw [List.find?_cons_of_pos
          (p := fun q : String × StateTransition => q.1 == k') _ hk0',
          List.find?_cons_of_pos
          (p := fun q : String × StateTransition => q.1 == k') _ hk0']
      · rw [List.find?_cons_of_neg
          (p := fun q : String × StateTransition => q.1 == k') _ hk0',
          List.find?_cons_of_neg
          (p := fun q : String × StateTransition => q.1 == k') _ hk0']
        exact ih

theorem foldl_dictInsert_spec (l : List StateTransition)
    (d : List (String × StateTransition)) (k : String)
    (t : StateTransition)
    (h : dictGet
      (l.foldl (fun acc u => dictInsert acc u.service_key u) d) k =
      some t) :
    (∃ l₁ l₂, l = l₁ ++ t :: l₂ ∧ t.service_key = k ∧
      ∀ u ∈ l₂, u.service_key ≠ k) ∨
    (dictGet d k = some t ∧ ∀ u ∈ l, u.service_key ≠ k) := by
  induction l generalizing d with
  | nil =>
    right
    exact ⟨h, by simp⟩
  | cons x l ih =>
    rw [List.foldl_cons] at h
    rcases ih (dictInsert d x.service_key x) h with
      ⟨l₁, l₂, heq, htk, hl₂⟩ | ⟨hd, hl⟩
    · left
      exact ⟨x :: l₁, l₂, by rw [heq, List.cons_append], htk, hl₂⟩
    · by_cases hx : x.service_key = k
      · left
        rw [hx, dictGet_dictInsert_self] at hd
        injection hd with hd
        refine ⟨[], l, ?_, ?_, hl⟩
        · rw [List.nil_append, hd]
        · rw [← hd, hx]
      · right
        rw [dictGet_dictInsert_other _ _ _ _ (fun he => hx he.symm)] at hd
        refine ⟨hd, ?_⟩
        intro u hu
        rcases List.mem_cons.mp hu with rfl | hul
        · exact hx
        · exact hl u hul

/-- The core of `get_state_transitions`: every binding of the returned
dict maps a key to a transition of that key, drawn from the store,
matching the query, and carrying the maximal timestamp among all matching
transitions of that key. -/
theorem get_state_transitions_spec (ts : List StateTransition)
    (q : StateTransition → Bool) (limit : Nat) (k : String)
    (t : StateTransition)
    (h : dictGet
      (((((ts.filter q).insertionSort tGE).take limit).insertionSort
        tLE).foldl (fun acc u => dictInsert acc u.service_key u) []) k =
      some t) :
    t.service_key = k ∧ t ∈ ts ∧ q t = true ∧
    ∀ u ∈ ts, q u = true → u.service_key = k →
      u.timestamp ≤ t.timestamp := by
  rcases foldl_dictInsert_spec _ _ _ _ h with
    ⟨l₁, l₂, heq, htk, hl₂⟩ | ⟨hd, -⟩
  · have htasc : t ∈ (((ts.filter q).insertionSort tGE).take
        limit).insertionSort tLE := by
      rw [heq]
      exact List.mem_append_right _ (List.mem_cons_self _ _)
    have htfetched : t ∈ ((ts.filter q).insertionSort tGE).take limit :=
      (List.mem_insertionSort _).mp htasc
    have htsd : t ∈ (ts.filter q).insertionSort tGE :=
      List.mem_of_mem_take htfetched
    have htfil : t ∈ ts.filter q := (List.mem_insertionSort _).mp htsd
    obtain ⟨htts, htq⟩ := List.mem_filter.mp htfil
    refine ⟨htk, htts, htq, ?_⟩
    intro u hu huq huk
    have hufil : u ∈ ts.filter q := List.mem_filter.mpr ⟨hu, huq⟩
    have husd : u ∈ (ts.filter q).insertionSort tGE :=
      (List.mem_insertionSort _).mpr hufil
    by_cases hutake : u ∈ ((ts.filter q).insertionSort tGE).take limit
    · have huasc : u ∈ (((ts.filter q).insertionSort tGE).take
          limit).insertionSort tLE :=
        (List.mem_insertionSort _).mpr hutake
      rw [heq] at huasc
      have hsorted : List.Sorted tLE
          ((((ts.filter q).insertionSort tGE).take
            limit).insertionSort tLE) :=
        List.sorted_insertionSort _ _
      rw [heq] at hsorted
      rcases List.mem_append.mp huasc with hul₁ | hur
      · exact (List.pairwise_append.mp hsorted).2.2 u hul₁ t
          (List.mem_cons_self _ _)
      · rcases List.mem_cons.mp hur with rfl | hul₂
        · exact le_refl _
        · exact absurd huk (hl₂ u hul₂)
    · have hdrop : u ∈ ((ts.filter q).insertionSort tGE).drop limit := by
        have hmem2 : u ∈ ((ts.filter q).insertionSort tGE).take limit ++
            ((ts.filter q).insertionSort tGE).drop limit := by
          rw [List.take_append_drop]
          exact husd
        rcases List.mem_append.mp hmem2 with h1 | h2
        · exact absurd h1 hutake
        · exact h2
      have hsorted : List.Sorted tGE ((ts.filter q).insertionSort tGE) :=
        List.sorted_insertionSort _ _
      have hsplit : (ts.filter q).insertionSort tGE =
          ((ts.filter q).insertionSort tGE).take limit ++
          ((ts.filter q).insertionSort tGE).drop limit :=
        (List.take_append_drop _ _).symm
      rw [hsplit] at hsorted
      exact (List.pairwise_append.mp hsorted).2.2 t htfetched u hdrop
  · simp [dictGet] at hd

/-- Claim C9: the state-transitions query (service key filter optional,
limit defaulting to 100, only-not-alerted flag defaulting to false) maps
each returned service key to a transition of that key that is stored,
matches the filter, has `alerted = false` whenever the flag is set, and
carries the maximal timestamp among all stored transitions matching the
filter for that key. -/
theorem C9_claim :
    (∀ (db : DB) (qkey : Option String) (limit : Nat) (flag : Bool)
        (k : String) (t : StateTransition),
      dictGet (get_state_transitions db qkey limit flag) k = some t →
      t.service_key = k ∧ t ∈ db.state_transitions ∧
      matchesQuery qkey flag t = true ∧
      (flag = true → t.alerted = false) ∧
      (∀ u ∈ db.state_transitions, matchesQuery qkey flag u = true →
        u.service_key = k → u.timestamp ≤ t.timestamp)) ∧
    ({ service_key := none : GetStateTransitionsRequest }.limit = 100 ∧
      { service_key :=
        none : GetStateTransitionsRequest }.only_not_alerted = false) := by
  refine ⟨?_, rfl, rfl⟩
  intro db qkey limit flag k t h
  obtain ⟨h1, h2, h3, h4⟩ :=
    get_state_transitions_spec db.state_transitions
      (matchesQuery qkey flag) limit k t h
  refine ⟨h1, h2, h3, ?_, h4⟩
  intro hflag
  unfold matchesQuery at h3
  rw [hflag] at h3
  simp only [if_true, ite_true, Bool.and_eq_true, beq_iff_eq] at h3
  exact h3.2

/-- Witness for C9: the plain query on a two-element store returns the
newer transition of `job-x`, which dominates the other matching
transition in timestamp. -/
theorem C9_witness :
    aliveTr.service_key = "job-x" ∧
    aliveTr ∈ (trDB9.state_transitions) ∧
    matchesQuery (some "job-x") false aliveTr = true ∧
    (false = true → aliveTr.alerted = false) ∧
    (∀ u ∈ trDB9.state_transitions,
      matchesQuery (some "job-x") false u = true →
      u.service_key = "job-x" → u.timestamp ≤ aliveTr.timestamp) :=
  (C9_claim.1 trDB9 (some "job-x") 100 false "job-x" aliveTr (by decide))

end ServiceRegistry
